import Mathlib

/-!
Verification development for the Bitbucket AI code-review pipe
(`src/main.py`).  Strings are modelled as `List Char`; the two external
HTTP collaborators (Bitbucket REST, the chat-completion service) and the
tokenizer are modelled as oracles, and every observable network request
is recorded as an `Effect`.
-/

namespace CodeReviewPipe

/-- Structural worker for `pySplit`: `pySplitGo sep skip s` computes
`pySplit sep (s.drop skip)`, the `skip` counter consuming the tail of a
just-matched separator one character at a time so that the recursion is
structural on `s` (and hence kernel-reducible). -/
def pySplitGo (sep : List Char) : Nat → List Char → List (List Char)
  | _, [] => [[]]
  | skip + 1, _ :: rest => pySplitGo sep skip rest
  | 0, c :: rest =>
    if sep.isPrefixOf (c :: rest) && !sep.isEmpty then
      [] :: pySplitGo sep (sep.length - 1) rest
    else
      match pySplitGo sep 0 rest with
      | [] => [[c]]
      | p :: ps => (c :: p) :: ps

/-- Python `str.split(sep)` for a non-empty separator `sep`:
non-overlapping, leftmost-first.  `pySplit sep [] = [[]]`, matching
Python's `"".split(sep) == [""]`.  (Python raises on an empty separator;
the program only ever splits on `"diff --git a/"` and `","`, both
non-empty, so the `sep = []` case of this definition is never used.) -/
def pySplit (sep : List Char) (s : List Char) : List (List Char) :=
  pySplitGo sep 0 s

/-- Structural worker for `countOcc`, mirroring `pySplitGo`. -/
def countOccGo (sep : List Char) : Nat → List Char → Nat
  | _, [] => 0
  | skip + 1, _ :: rest => countOccGo sep skip rest
  | 0, c :: rest =>
    if sep.isPrefixOf (c :: rest) && !sep.isEmpty then
      1 + countOccGo sep (sep.length - 1) rest
    else
      countOccGo sep 0 rest

/-- Number of non-overlapping, leftmost-first occurrences of `sep` in a
string — the count of cut points made by `pySplit`. -/
def countOcc (sep : List Char) (s : List Char) : Nat :=
  countOccGo sep 0 s

/-- Join a list of strings with a separator between consecutive
elements (the inverse of `pySplit`). -/
def joinSep (sep : List Char) : List (List Char) → List Char
  | [] => []
  | [p] => p
  | p :: ps => p ++ sep ++ joinSep sep ps

/-- `BitbucketApiService.DIFF_DELIMITER` (src/main.py:28). -/
def DIFF_DELIMITER : List Char :=
  ['d', 'i', 'f', 'f', ' ', '-', '-', 'g', 'i', 't', ' ', 'a', '/']

/-- `BitbucketApiService.fetch_diffs` (src/main.py:50-56).
`filenames` is always a list at the call site (`get_diffs_to_review`),
so Python truthiness of `filenames` is non-emptiness.  The filtering
branch is the Python comprehension
`[delimiter + diff for diff in diffs.split(delimiter)
  for filename in filenames if diff.startswith(filename)]`:
the outer loop runs over split parts, the inner over filenames, so a
part keeps one copy per allowlist entry that prefixes it. -/
def fetch_diffs (diffs : List Char) (filenames : List (List Char))
    (delimiter : List Char) : List (List Char) :=
  if !filenames.isEmpty then
    (pySplit delimiter diffs).flatMap
      (fun d => (filenames.filter (fun f => f.isPrefixOf d)).map
        (fun _ => delimiter ++ d))
  else
    (pySplit delimiter diffs).map (fun d => delimiter ++ d)

/-- The scan performed by the lazy group of `re.search(r"a/(.*?) b/", diff)`
after the literal `a/` has been consumed (src/main.py:148): collect
characters until the first occurrence of the literal `" b/"`; `.` does
not cross a newline, and reaching the end without `" b/"` is a failure. -/
def findSpaceB : List Char → Option (List Char)
  | [] => none
  | c :: rest =>
    if ([' ', 'b', '/'] : List Char).isPrefixOf (c :: rest) then some []
    else if c = Char.ofNat 10 then none
    else (findSpaceB rest).map (fun g => c :: g)

/-- `re.search(pattern_filename, diff).group(1)` for
`pattern_filename = a/(.*?) b/` (src/main.py:148-150): try each start
position left to right; at a position starting with `a/`, succeed with
the lazy group if `" b/"` occurs before the end of the line, otherwise
move one character right. -/
def searchAB : List Char → Option (List Char)
  | c :: rest =>
    if c = 'a' then
      match rest with
      | '/' :: rest2 =>
        match findSpaceB rest2 with
        | some g => some g
        | none => searchAB rest
      | _ => searchAB rest
    else searchAB rest
  | [] => none

/-- `CodeReviewPipe.get_files_with_diffs` (src/main.py:145-152): keep
the first regex group for every chunk where the pattern matches, in
order, skipping non-matching chunks. -/
def get_files_with_diffs (diffs_to_review : List (List Char)) : List (List Char) :=
  diffs_to_review.filterMap searchAB

/-- Boolean substring test (used only to state hypotheses about diff
headers). -/
def hasSubstring (pat : List Char) : List Char → Bool
  | [] => pat.isPrefixOf []
  | c :: rest => pat.isPrefixOf (c :: rest) || hasSubstring pat rest

/-- Position `i` of `key` holds a colon followed by at least one digit,
with a non-empty prefix before it that `(.+)` can actually cover — `.`
matches any character except a newline — i.e. the condition under which
the greedy group of `re.match(r"(.+):(\d+)", key)` can stop at `i`. -/
def isColonDigitAt (key : List Char) (i : Nat) : Bool :=
  match key.drop i with
  | c :: d :: _ =>
    i != 0 && c == ':' && d.isDigit
      && (key.take i).all (fun ch => ch != Char.ofNat 10)
  | _ => false

/-- `re.match(pattern_filename_line, filename_line)` for
`pattern_filename_line = (.+):(\d+)` (src/main.py:238, 244), returning
`(group 1, group 2)` on success.  The regex is anchored at the start
only; the greedy `(.+)` — whose `.` cannot match a newline — backtracks
to the last newline-free-prefix position followed by a colon and a
digit, and `(\d+)` then takes the maximal digit run, with any remaining
characters of the key left unmatched. -/
def parse_filename_line (key : List Char) : Option (List Char × List Char) :=
  match ((List.range key.length).filter (isColonDigitAt key)).getLast? with
  | none => none
  | some i => some (key.take i, (key.drop (i + 1)).takeWhile (fun c => c.isDigit))

/-- Python `int` on a non-empty digit string. -/
def digitsToNat (l : List Char) : Nat :=
  l.foldl (fun a c => a * 10 + (c.toNat - 48)) 0

/-- One inline- or summary-comment request body as posted to the
Bitbucket comments endpoint (src/main.py:247-255 and 264-268). -/
inductive CommentPayload
  | inline (toLine : Nat) (path : List Char) (raw : List Char)
  | summaryComment (raw : List Char)
  deriving DecidableEq

/-- The path component of a published payload. -/
def commentPath : CommentPayload → List Char
  | .inline _ p _ => p
  | .summaryComment _ => []

/-- The loop body of `add_comments` (src/main.py:243-245): an entry is
published iff its key matches the regex and its feedback body is
non-empty (`if filename_line_match and len(content)`), yielding
`(filename, int(line), content)`; otherwise it is silently skipped. -/
def suggestionEntry (kv : List Char × List Char) :
    Option (List Char × Nat × List Char) :=
  match parse_filename_line kv.1 with
  | some fl => if kv.2.length ≠ 0 then some (fl.1, digitsToNat fl.2, kv.2) else none
  | none => none

/-- `CodeReviewPipe.add_comments` (src/main.py:237-261), with the
suggestions mapping as an insertion-ordered association list and the
posted payloads returned instead of sent.  The method returns
`set(files_with_comments)` and `added_suggestions_counter`. -/
def add_comments (data : List (List Char × List Char)) :
    List CommentPayload × Finset (List Char) × Nat :=
  let published := data.filterMap suggestionEntry
  (published.map (fun e => CommentPayload.inline e.2.1 e.1 e.2.2),
   (published.map (fun e => e.1)).toFinset,
   published.length)

/-- The location-key format as the specification words it: the whole key
is `<path>:<line>` with `<line>` one or more digits reaching the end of
the key and `<path>` everything before that final `:<digits>` segment.
Stated for comparison with `parse_filename_line`. -/
def specLocKeyFormat (key : List Char) : Option (List Char × List Char) :=
  match ((List.range key.length).filter (fun i =>
      isColonDigitAt key i && (key.drop (i + 1)).all (fun c => c.isDigit))).getLast? with
  | none => none
  | some i => some (key.take i, key.drop (i + 1))

/-- Python truthiness of an optional environment string: set and
non-empty. -/
def pyTruthy (o : Option (List Char)) : Bool :=
  match o with
  | some s => !s.isEmpty
  | none => false

/-- One chat message (`{"role": ..., "content": ...}`). -/
structure Message where
  role : List Char
  content : List Char
  deriving DecidableEq

/-- `DEFAULT_SYSTEM_PROMPT_FOR_CODE_REVIEW` (src/main.py:18-23). -/
def DEFAULT_SYSTEM_PROMPT_FOR_CODE_REVIEW : List Char :=
  ("\n\"Review a file of source code, and the git diff of a set of changes made to that file on a Pull Request. Follow a software development principles: SOLID, DRY, KISS, YAGNI. Skip compliments. Propose corrections.\"\n\"You are a helpful assistant designed to output JSON.\"\n\"The response must be a JSON object containing summarization and suggestions where the key for each piece of feedback is the filename and line number in the file where the feedback must be left, and the value is the feedback itself as a string. \"\n\"JSON must follow the next structure \x7b\"summary“: \"\x7bpull request detailed description\x7d\", \"suggestions\": \x7b \"\x7bfilename:line-number\x7d“: “\x7bfeedback relating to the referenced line in the file.\x7d“ \x7d \x7d\"\n").data

/-- Python `repr` of a string: quoted with `'` (or `"` when the text
contains `'` but no `"`), with the quote character, backslashes and
common control characters escaped.  (The `\xhh` escaping of other
non-printable characters is not reproduced; no reviewed property
inspects this text, it only feeds the tokenizer oracle.) -/
def pyReprStr (s : List Char) : List Char :=
  let sq : Char := Char.ofNat 39
  let dq : Char := Char.ofNat 34
  let bs : Char := Char.ofNat 92
  let q : Char := if s.contains sq && !s.contains dq then dq else sq
  let escape : Char → List Char := fun c =>
    if c = bs then [bs, bs]
    else if c = q then [bs, q]
    else if c = Char.ofNat 10 then [bs, 'n']
    else if c = Char.ofNat 13 then [bs, 'r']
    else if c = Char.ofNat 9 then [bs, 't']
    else [c]
  q :: (s.flatMap escape ++ [q])

/-- Python `str` of a list of strings, as applied to `diffs_to_review`
in `get_code_review` (src/main.py:178). -/
def pyStrList (l : List (List Char)) : List Char :=
  '[' :: (joinSep [',', ' '] (l.map pyReprStr) ++ [']'])

/-- The JSON object recovered by `json_repair` from the completion
text, reduced to the two fields the pipe reads: `dict.get` returns
`None` for an absent field, hence the `Option`s.  `suggestions` is an
insertion-ordered mapping. -/
structure ReviewPayload where
  summary : Option (List Char)
  suggestions : Option (List (List Char × List Char))
  deriving DecidableEq

/-- An observable outward request of one pipeline run. -/
inductive Effect
  | fetchDiff (workspace repoSlug : Option (List Char)) (prId : List Char)
  | completionCall (messages : List Message)
  | postComment (p : CommentPayload)
  deriving DecidableEq

/-- The uncaught Python exceptions a run can end with. -/
inductive RunError
  | valueError       -- resolve_auth: no auth scheme configured
  | envError         -- run: BITBUCKET_PR_ID missing (EnvironmentError)
  | attributeError   -- NoneType has no attribute (get / items)
  deriving DecidableEq

deriving instance DecidableEq for Except

/-- The recognized environment configuration (src/main.py:105-120,
274).  `promptMaxTokens` is `int(os.getenv('CHATGPT_PROMPT_MAX_TOKENS',
'0'))`.  The two optional YAML file paths only merge extra passthrough
parameters into client/completion keyword arguments and are not
modelled. -/
structure Env where
  username : Option (List Char)
  password : Option (List Char)
  token : Option (List Char)
  workspace : Option (List Char)
  repoSlug : Option (List Char)
  prId : Option (List Char)
  filesToReview : Option (List Char)
  userMessage : Option (List Char)
  model : Option (List Char)
  promptMaxTokens : Nat

/-- The external collaborators, assumed to respond successfully: the
diff endpoint's text, the tokenizer (`tiktoken` encoding, merged with
the `encoding_for_model` fallback), and the completion service composed
with `json_repair`. -/
structure Oracles where
  diffText : List Char
  encode : List Char → Nat
  completion : List Message → ReviewPayload

/-- The resolved Bitbucket authentication object. -/
inductive Auth
  | httpBasic (username password : List Char)
  | tokenAuth (t : List Char)
  deriving DecidableEq

/-- `CodeReviewPipe.resolve_auth` (src/main.py:123-134), run during
`__init__` before anything else. -/
def resolve_auth (env : Env) : Except RunError Auth :=
  if pyTruthy env.username && pyTruthy env.password then
    .ok (.httpBasic (env.username.getD []) (env.password.getD []))
  else if pyTruthy env.token then
    .ok (.tokenAuth (env.token.getD []))
  else
    .error .valueError

/-- `CodeReviewPipe.get_diffs_to_review` (src/main.py:136-143): fetch
the PR diff text and split/filter it.  (`self.files_to_review.split(',')`
is always a non-empty list, so the second conjunct of the Python
condition never matters.) -/
def get_diffs_to_review (env : Env) (o : Oracles) : List (List Char) :=
  let files_to_review :=
    if pyTruthy env.filesToReview then pySplit [','] (env.filesToReview.getD [])
    else []
  fetch_diffs o.diffText files_to_review DIFF_DELIMITER

/-- The message sequence assembled in `get_code_review`
(src/main.py:166-180): the fixed system prompt, the optional extra
system instruction from `MESSAGE`, and `str(diffs_to_review)` as the
user message. -/
def build_messages (env : Env) (diffs_to_review : List (List Char)) : List Message :=
  [{ role := ("system").data, content := DEFAULT_SYSTEM_PROMPT_FOR_CODE_REVIEW }]
  ++ (if pyTruthy env.userMessage then
        [{ role := ("system").data, content := env.userMessage.getD [] }]
      else [])
  ++ [{ role := ("user").data, content := pyStrList diffs_to_review }]

/-- `AiService.num_tokens_from_messages` (src/main.py:77-97) for
messages with `role` and `content` keys (the pipe never sets `name`):
4 tokens of per-message overhead, the encoding of each value, and 2
tokens of reply priming. -/
def num_tokens_from_messages (encode : List Char → Nat) (messages : List Message) : Nat :=
  (messages.foldl (fun acc m => acc + 4 + encode m.role + encode m.content) 0) + 2

/-- `CodeReviewPipe.get_code_review` (src/main.py:165-235): build the
messages, count tokens, and either stop (`return None`, no completion
request) when a non-zero `CHATGPT_PROMPT_MAX_TOKENS` is exceeded, or
invoke the completion service and parse its reply. -/
def get_code_review (env : Env) (o : Oracles) (diffs_to_review : List (List Char)) :
    Option ReviewPayload × List Effect :=
  let messages := build_messages env diffs_to_review
  let num_tokens := num_tokens_from_messages o.encode messages
  let chat_gpt_token_limit := env.promptMaxTokens
  if chat_gpt_token_limit ≠ 0 ∧ num_tokens > chat_gpt_token_limit then
    (none, [])
  else
    (some (o.completion messages), [.completionCall messages])

/-- The summary-comment step of `run` (src/main.py:308-309): publish a
single top-level comment iff the summary is truthy. -/
def summaryEffects (summary : Option (List Char)) : List Effect :=
  if pyTruthy summary then [.postComment (.summaryComment (summary.getD []))]
  else []

/-- `CodeReviewPipe.__init__` followed by `CodeReviewPipe.run`
(src/main.py:102-134 and 271-317), as executed by `__main__`.  Returns
the run's outcome together with the ordered list of outward requests.
A `none` from `get_code_review` (token-budget stop) reaches
`code_review.get('summary')` and raises `AttributeError`; absent
`suggestions` reach `suggestions.items()` inside `add_comments` and
raise `AttributeError` after the summary comment was already posted. -/
def run (env : Env) (o : Oracles) : Except RunError Unit × List Effect :=
  match resolve_auth env with
  | .error e => (.error e, [])
  | .ok _auth =>
    match env.prId with
    | none => (.error .envError, [])
    | some prId =>
      let diffs_to_review := get_diffs_to_review env o
      let fetchEff : List Effect := [.fetchDiff env.workspace env.repoSlug prId]
      if diffs_to_review.isEmpty then
        (.ok (), fetchEff)
      else
        let _files_with_diffs := get_files_with_diffs diffs_to_review
        match get_code_review env o diffs_to_review with
        | (none, effs) => (.error .attributeError, fetchEff ++ effs)
        | (some payload, effs) =>
          let sEffs := summaryEffects payload.summary
          match payload.suggestions with
          | none => (.error .attributeError, fetchEff ++ effs ++ sEffs)
          | some suggestions =>
            let published := add_comments suggestions
            (.ok (), fetchEff ++ effs ++ sEffs
              ++ published.1.map Effect.postComment)

/-! Concrete configurations and oracles used to instantiate the theorems
below on closed inputs. -/

/-- A small one-file pull-request diff. -/
def sampleDiffText : List Char := ("diff --git a/m.py b/m.py\n+1\n").data

/-- Valid username/app-password configuration targeting workspace `w`,
repository `r`, pull request `1`, with no token ceiling. -/
def envPlain : Env :=
  ⟨some (("u").data), some (("p").data), none, some (("w").data),
   some (("r").data), some (("1").data), none, none, some (("gpt-4").data), 0⟩

/-- Like `envPlain` but with `CHATGPT_PROMPT_MAX_TOKENS = 3000`. -/
def envTokenLimit : Env :=
  ⟨some (("u").data), some (("p").data), none, some (("w").data),
   some (("r").data), some (("1").data), none, none, some (("gpt-4").data), 3000⟩

/-- Both auth schemes absent. -/
def envNoAuth : Env :=
  ⟨none, none, none, some (("w").data), some (("r").data), some (("1").data),
   none, none, none, 0⟩

/-- Valid auth but `BITBUCKET_PR_ID` unset. -/
def envNoPr : Env :=
  ⟨some (("u").data), some (("p").data), none, some (("w").data),
   some (("r").data), none, none, none, none, 0⟩

/-- Valid auth and PR id, but `BITBUCKET_WORKSPACE` and
`BITBUCKET_REPO_SLUG` both unset. -/
def envNoWorkspace : Env :=
  ⟨some (("u").data), some (("p").data), none, none, none, some (("1").data),
   none, none, none, 0⟩

/-- Valid auth and PR id with `FILES_TO_REVIEW=zzz`, an allowlist
matching nothing. -/
def envFilteredOut : Env :=
  ⟨some (("u").data), some (("p").data), none, some (("w").data),
   some (("r").data), some (("1").data), some (("zzz").data), none, none, 0⟩

/-- Tokenizer charging 1000 tokens per value; completion returning a
summary and an empty suggestions mapping. -/
def oracleTokenLimit : Oracles :=
  ⟨sampleDiffText, fun _ => 1000, fun _ => ⟨some (("ok").data), some []⟩⟩

/-- Completion reply `{"summary": "ok"}` — the `suggestions` field is
absent. -/
def oracleAbsentSuggestions : Oracles :=
  ⟨sampleDiffText, fun _ => 0, fun _ => ⟨some (("ok").data), none⟩⟩

/-- Completion reply with no summary and an empty suggestions mapping. -/
def oracleNoComments : Oracles :=
  ⟨sampleDiffText, fun _ => 0, fun _ => ⟨none, some []⟩⟩

/-- An empty diff response from Bitbucket. -/
def oracleEmptyDiff : Oracles :=
  ⟨[], fun _ => 0, fun _ => ⟨none, some []⟩⟩

/-! Helper theorems about the diff splitter. -/

/-- The skip counter of `pySplitGo` just drops characters. -/
theorem pySplitGo_drop (sep : List Char) :
    ∀ (s : List Char) (skip : Nat),
      pySplitGo sep skip s = pySplit sep (s.drop skip) := by
  intro s
  induction s with
  | nil => intro skip; cases skip <;> rfl
  | cons c rest ih =>
    intro skip
    cases skip with
    | zero => rfl
    | succ k => simpa [pySplitGo] using ih k

/-- The skip counter of `countOccGo` just drops characters. -/
theorem countOccGo_drop (sep : List Char) :
    ∀ (s : List Char) (skip : Nat),
      countOccGo sep skip s = countOcc sep (s.drop skip) := by
  intro s
  induction s with
  | nil => intro skip; cases skip <;> rfl
  | cons c rest ih =>
    intro skip
    cases skip with
    | zero => rfl
    | succ k => simpa [countOccGo] using ih k

/-- The defining equation of `pySplit` on a non-empty string. -/
theorem pySplit_cons (sep : List Char) (c : Char) (rest : List Char) :
    pySplit sep (c :: rest) =
      if sep.isPrefixOf (c :: rest) && !sep.isEmpty then
        [] :: pySplit sep (rest.drop (sep.length - 1))
      else
        match pySplit sep rest with
        | [] => [[c]]
        | p :: ps => (c :: p) :: ps := by
  show pySplitGo sep 0 (c :: rest) = _
  rw [pySplitGo, pySplitGo_drop]
  rfl

/-- The defining equation of `countOcc` on a non-empty string. -/
theorem countOcc_cons (sep : List Char) (c : Char) (rest : List Char) :
    countOcc sep (c :: rest) =
      if sep.isPrefixOf (c :: rest) && !sep.isEmpty then
        1 + countOcc sep (rest.drop (sep.length - 1))
      else
        countOcc sep rest := by
  show countOccGo sep 0 (c :: rest) = _
  rw [countOccGo, countOccGo_drop]
  rfl

theorem DIFF_DELIMITER_eq_string : DIFF_DELIMITER = ("diff --git a/").data := rfl

/-- `pySplit` always returns at least one part (Python's `split` does too). -/
theorem pySplit_ne_nil (sep s : List Char) : pySplit sep s ≠ [] := by
  cases s with
  | nil => simp [pySplit, pySplitGo]
  | cons c rest =>
    rw [pySplit_cons]
    split
    · simp
    · split <;> simp

/-- The number of parts is the occurrence count plus one. -/
theorem pySplit_length (sep : List Char) (s : List Char) :
    (pySplit sep s).length = countOcc sep s + 1 := by
  have main : ∀ n s, List.length s ≤ n →
      (pySplit sep s).length = countOcc sep s + 1 := by
    intro n
    induction n with
    | zero =>
      intro s hs
      have hnil : s = [] := by cases s <;> simp_all
      subst hnil
      simp [pySplit, countOcc, pySplitGo, countOccGo]
    | succ n ih =>
      intro s hs
      cases s with
      | nil => simp [pySplit, countOcc, pySplitGo, countOccGo]
      | cons c rest =>
        rw [pySplit_cons, countOcc_cons]
        split
        · have := ih (rest.drop (sep.length - 1)) (by
            simp only [List.length_drop]
            simp only [List.length_cons] at hs
            omega)
          simp [this]
          omega
        · have := ih rest (by simp only [List.length_cons] at hs; omega)
          rcases hsplit : pySplit sep rest with _ | ⟨p, ps⟩
          · exact absurd hsplit (pySplit_ne_nil sep rest)
          · rw [hsplit] at this
            simp_all
  exact main s.length s (le_refl _)

/-- Auxiliary: `joinSep` commutes with consing a character onto the head part. -/
theorem joinSep_cons_cons (sep : List Char) (c : Char) (h : List Char)
    (t : List (List Char)) :
    joinSep sep ((c :: h) :: t) = c :: joinSep sep (h :: t) := by
  cases t <;> simp [joinSep]

/-- Splitting is inverted by joining with the separator: the split loses
no text. -/
theorem joinSep_pySplit (sep : List Char) (hsep : sep ≠ []) (s : List Char) :
    joinSep sep (pySplit sep s) = s := by
  have main : ∀ n s, List.length s ≤ n → joinSep sep (pySplit sep s) = s := by
    intro n
    induction n with
    | zero =>
      intro s hs
      have hnil : s = [] := by cases s <;> simp_all
      subst hnil
      simp [pySplit, pySplitGo, joinSep]
    | succ n ih =>
      intro s hs
      cases s with
      | nil => simp [pySplit, pySplitGo, joinSep]
      | cons c rest =>
        rw [pySplit_cons]
        split
        · rename_i hcond
          simp only [Bool.and_eq_true] at hcond
          have hpre : sep <+: (c :: rest) :=
            List.isPrefixOf_iff_prefix.mp hcond.1
          obtain ⟨t, ht⟩ := hpre
          have hlen : 1 ≤ sep.length := by
            cases sep with
            | nil => simp at hsep
            | cons _ _ => simp
          have hdrop : rest.drop (sep.length - 1) = t := by
            have h1 : List.drop sep.length (sep ++ t) = t := List.drop_left _ _
            rw [ht] at h1
            have h2 : List.drop sep.length (c :: rest) =
                List.drop (sep.length - 1) rest := by
              cases hk : sep.length with
              | zero => omega
              | succ k => simp [hk]
            rw [h2] at h1
            exact h1
          have hrec := ih (rest.drop (sep.length - 1)) (by
            simp only [List.length_drop]
            simp only [List.length_cons] at hs
            omega)
          rcases hsplit : pySplit sep (rest.drop (sep.length - 1)) with _ | ⟨p, ps⟩
          · exact absurd hsplit (pySplit_ne_nil sep _)
          · rw [hsplit] at hrec
            calc joinSep sep ([] :: p :: ps)
                = sep ++ joinSep sep (p :: ps) := by simp [joinSep]
              _ = sep ++ rest.drop (sep.length - 1) := by rw [hrec]
              _ = sep ++ t := by rw [hdrop]
              _ = c :: rest := ht
        · have hrec := ih rest (by simp only [List.length_cons] at hs; omega)
          rcases hsplit : pySplit sep rest with _ | ⟨p, ps⟩
          · exact absurd hsplit (pySplit_ne_nil sep rest)
          · rw [hsplit] at hrec
            rw [joinSep_cons_cons, hrec]
  exact main s.length s (le_refl _)

/-- A list is a `Bool`-prefix of itself followed by anything. -/
theorem isPrefixOf_append_self (sep x : List Char) :
    sep.isPrefixOf (sep ++ x) = true :=
  List.isPrefixOf_iff_prefix.mpr ⟨x, rfl⟩

/-- Concatenating all parts, each with the separator re-attached in
front, yields the separator followed by the original text. -/
theorem flatten_map_append_joinSep (sep : List Char) :
    ∀ l : List (List Char), l ≠ [] →
      (l.map (fun p => sep ++ p)).flatten = sep ++ joinSep sep l := by
  intro l
  induction l with
  | nil => intro h; simp at h
  | cons p ps ih =>
    intro _
    cases ps with
    | nil => simp [joinSep]
    | cons q qs =>
      have hih := ih (by simp)
      rw [List.map_cons, List.flatten_cons, hih]
      have hj : joinSep sep (p :: q :: qs) = p ++ sep ++ joinSep sep (q :: qs) := rfl
      rw [hj]
      simp [List.append_assoc]

/-! Claim C2. -/

/-- C2 is false as stated: the text `"diff --git a/x b/x\n"` contains
the delimiter exactly once, yet the splitter returns two chunks (Python
`split` produces occurrences-plus-one parts; the part before the leading
delimiter becomes a bare-delimiter chunk). -/
theorem c2_chunk_count_counterexample :
    countOcc DIFF_DELIMITER (("diff --git a/x b/x\n").data) = 1 ∧
    (fetch_diffs (("diff --git a/x b/x\n").data) [] DIFF_DELIMITER).length ≠ 1 := by
  decide

/-- C2 (amended): for every diff text and non-empty delimiter, the
unfiltered splitter returns N+1 chunks where N is the number of
delimiter occurrences; every chunk starts with the delimiter; and the
concatenation of all chunks equals the delimiter followed by the
original text, so the original text is reconstructed by stripping the
single leading delimiter from the concatenation (equivalently, by
re-joining the chunks' delimiter-stripped bodies with the delimiter). -/
theorem c2_split_chunks (t sep : List Char) (hsep : sep ≠ []) :
    (fetch_diffs t [] sep).length = countOcc sep t + 1 ∧
    (∀ c ∈ fetch_diffs t [] sep, sep.isPrefixOf c = true) ∧
    (fetch_diffs t [] sep).flatten = sep ++ t := by
  have hmap : fetch_diffs t [] sep = (pySplit sep t).map (fun d => sep ++ d) := rfl
  refine ⟨?_, ?_, ?_⟩
  · rw [hmap, List.length_map, pySplit_length]
  · intro c hc
    rw [hmap, List.mem_map] at hc
    obtain ⟨p, _, rfl⟩ := hc
    exact isPrefixOf_append_self sep p
  · rw [hmap, flatten_map_append_joinSep sep _ (pySplit_ne_nil sep t),
      joinSep_pySplit sep hsep t]

/-- Witness for `c2_split_chunks` at a two-file diff. -/
theorem c2_split_chunks_witness :
    (fetch_diffs (("diff --git a/x b/x\n+l\ndiff --git a/y b/y\n-m\n").data)
        [] DIFF_DELIMITER).length
      = countOcc DIFF_DELIMITER
          (("diff --git a/x b/x\n+l\ndiff --git a/y b/y\n-m\n").data) + 1 :=
  (c2_split_chunks (("diff --git a/x b/x\n+l\ndiff --git a/y b/y\n-m\n").data)
    DIFF_DELIMITER (by decide)).1

/-! Claim C5. -/

/-- C5 is false as stated: splitting empty diff text does not produce an
empty sequence of chunks — Python `"".split(sep) == [""]`, so the
splitter returns one chunk consisting of the bare delimiter. -/
theorem c5_empty_diff_counterexample :
    fetch_diffs [] [] DIFF_DELIMITER ≠ [] ∧
    fetch_diffs [] [] DIFF_DELIMITER = [DIFF_DELIMITER] := by
  decide

/-- C5 (amended): splitting empty diff text produces the single chunk
`[delimiter]` (not an empty sequence); separately, whenever the splitter
result is empty — possible only through allowlist filtering — the
pipeline ends successfully right after the diff fetch, without invoking
the completion service and without posting any comment. -/
theorem c5_empty_split_early_exit (d : List Char) (env : Env) (o : Oracles)
    (a : Auth) (ha : resolve_auth env = .ok a)
    (pid : List Char) (hpid : env.prId = some pid)
    (hd : get_diffs_to_review env o = []) :
    fetch_diffs [] [] d = [d] ∧
    run env o = (.ok (), [.fetchDiff env.workspace env.repoSlug pid]) := by
  constructor
  · simp [fetch_diffs, pySplit, pySplitGo]
  · simp only [run, ha, hpid, hd]
    rfl

/-- Witness for `c5_empty_split_early_exit`: an allowlist `zzz` matching
no chunk empties the splitter result and the run exits early. -/
theorem c5_empty_split_early_exit_witness :
    run envFilteredOut oracleEmptyDiff =
      (.ok (), [.fetchDiff (some (("w").data)) (some (("r").data)) (("1").data)]) :=
  (c5_empty_split_early_exit [] envFilteredOut oracleEmptyDiff
    (.httpBasic (("u").data) (("p").data)) (by decide)
    (("1").data) (by decide) (by decide)).2

/-! Claim C8. -/

/-- C8: with a non-empty allowlist the splitter retains only chunks
whose text begins with an allowlisted filename immediately after the
delimiter (the `startswith` test runs on the split part, i.e. on the
header text following the delimiter); with an empty allowlist no
filtering occurs; and filtering the two-file diff for `a.py`/`b.py` by
the allowlist `["a.py"]` yields exactly the `a.py` chunk. -/
theorem c8_allowlist_filter (t d : List Char) (fs : List (List Char)) (h : fs ≠ []) :
    (∀ c ∈ fetch_diffs t fs d, ∃ p, p ∈ pySplit d t ∧ c = d ++ p ∧
        ∃ f ∈ fs, f.isPrefixOf p = true) ∧
    fetch_diffs t [] d = (pySplit d t).map (fun p => d ++ p) ∧
    fetch_diffs (("diff --git a/a.py b/a.py\n+1\ndiff --git a/b.py b/b.py\n+2\n").data)
        [("a.py").data] DIFF_DELIMITER
      = [("diff --git a/a.py b/a.py\n+1\n").data] := by
  refine ⟨?_, rfl, by decide⟩
  intro c hc
  rw [fetch_diffs, if_pos (by simp [List.isEmpty_eq_false, h])] at hc
  rw [List.mem_flatMap] at hc
  obtain ⟨p, hp, hmem⟩ := hc
  rw [List.mem_map] at hmem
  obtain ⟨f, hf, rfl⟩ := hmem
  rw [List.mem_filter] at hf
  exact ⟨p, hp, rfl, f, hf.1, hf.2⟩

/-- Witness for `c8_allowlist_filter` at the two-file example. -/
theorem c8_allowlist_filter_witness :
    fetch_diffs (("diff --git a/a.py b/a.py\n+1\ndiff --git a/b.py b/b.py\n+2\n").data)
        [("a.py").data] DIFF_DELIMITER
      = [("diff --git a/a.py b/a.py\n+1\n").data] :=
  (c8_allowlist_filter [] [] [("a.py").data] (by decide)).2.2

/-! Claim C10. -/

/-- Mapping a constant over a filtered list replicates the constant
`countP` times. -/
theorem map_const_filter_replicate (l : List (List Char)) (q : List Char → Bool)
    (x : List Char) :
    (l.filter q).map (fun _ => x) = List.replicate (l.countP q) x := by
  induction l with
  | nil => rfl
  | cons a as ih =>
    by_cases hqa : q a = true
    · simp [List.filter_cons, List.countP_cons, hqa, ih, List.replicate_succ]
    · simp only [Bool.not_eq_true] at hqa
      simp [List.filter_cons, List.countP_cons, hqa, ih]

/-- C10: with a non-empty allowlist each split part appears once per
allowlist entry that prefixes it (so a chunk matched by k entries is
emitted k times); an empty-string entry — as produced by a trailing
comma in `FILES_TO_REVIEW` — prefixes every part, so every chunk passes
the filter; and in the concrete example the part matched by both `""`
and `"a.py"` appears twice. -/
theorem c10_duplicate_chunks (t d : List Char) (fs : List (List Char)) (h : fs ≠ []) :
    fetch_diffs t fs d = (pySplit d t).flatMap
        (fun p => List.replicate (fs.countP (fun f => f.isPrefixOf p)) (d ++ p)) ∧
    ([] ∈ fs → ∀ p ∈ pySplit d t, (d ++ p) ∈ fetch_diffs t fs d) ∧
    pySplit [','] (("a.py,").data) = [("a.py").data, []] ∧
    (fetch_diffs (("diff --git a/a.py b/x\n").data) [[], ("a.py").data]
        DIFF_DELIMITER).count (DIFF_DELIMITER ++ ("a.py b/x\n").data) = 2 := by
  have hbranch : fetch_diffs t fs d = (pySplit d t).flatMap
      (fun p => (fs.filter (fun f => f.isPrefixOf p)).map (fun _ => d ++ p)) := by
    rw [fetch_diffs, if_pos (by simp [List.isEmpty_eq_false, h])]
  refine ⟨?_, ?_, by decide, by decide⟩
  · rw [hbranch]
    simp only [map_const_filter_replicate]
  · intro h0 p hp
    rw [hbranch, List.mem_flatMap]
    exact ⟨p, hp, List.mem_map.mpr
      ⟨[], List.mem_filter.mpr ⟨h0, by cases p <;> rfl⟩, rfl⟩⟩

/-- Witness for `c10_duplicate_chunks` at the duplicated-chunk example. -/
theorem c10_duplicate_chunks_witness :
    fetch_diffs (("diff --git a/a.py b/x\n").data) [[], ("a.py").data] DIFF_DELIMITER
      = (pySplit DIFF_DELIMITER (("diff --git a/a.py b/x\n").data)).flatMap
          (fun p => List.replicate
            (([[], ("a.py").data] : List (List Char)).countP
              (fun f => f.isPrefixOf p)) (DIFF_DELIMITER ++ p)) :=
  (c10_duplicate_chunks (("diff --git a/a.py b/x\n").data) DIFF_DELIMITER
    [[], ("a.py").data] (by decide)).1

/-! Claim C4. -/

/-- Appending `" b/..."` to a string that does not start with `" b/"`
cannot create an occurrence of `" b/"` at its first position. -/
theorem notPrefix_extend (c : Char) (p rest : List Char)
    (h : ([' ', 'b', '/'] : List Char).isPrefixOf (c :: p) = false) :
    ([' ', 'b', '/'] : List Char).isPrefixOf
      (c :: (p ++ ' ' :: 'b' :: '/' :: rest)) = false := by
  cases p with
  | nil => simp [List.isPrefixOf]
  | cons b1 p2 =>
    cases p2 with
    | nil => simp [List.isPrefixOf]
    | cons b2 p3 =>
      simp only [List.cons_append, List.isPrefixOf] at h ⊢
      simpa using (by simpa using h)

/-- The lazy scan stops exactly at an appended `" b/"` marker when the
text before it contains no newline and no `" b/"` of its own. -/
theorem findSpaceB_append (pathA rest : List Char)
    (h1 : pathA.all (fun c => c ≠ Char.ofNat 10) = true)
    (h2 : hasSubstring [' ', 'b', '/'] pathA = false) :
    findSpaceB (pathA ++ ' ' :: 'b' :: '/' :: rest) = some pathA := by
  induction pathA with
  | nil =>
    rw [List.nil_append, findSpaceB, if_pos (by cases rest <;> rfl)]
  | cons c p ih =>
    rw [List.all_cons, Bool.and_eq_true] at h1
    rw [hasSubstring, Bool.or_eq_false_iff] at h2
    rw [List.cons_append, findSpaceB]
    rw [if_neg (by rw [notPrefix_extend c p rest h2.1]; simp)]
    rw [if_neg (by simpa using h1.1)]
    rw [ih h1.2 h2.2]
    rfl

/-- C4 is false as stated: on the rename-style header
`diff --git a/old.py b/new.py` the extractor returns the pre-change path
`old.py` (group 1 of `a/(.*?) b/` sits between `a/` and `" b/"`), not
the post-change path `new.py` that the claim promises. -/
theorem c4_rename_counterexample :
    get_files_with_diffs [("diff --git a/old.py b/new.py\n+1\n").data]
      = [("old.py").data] ∧
    get_files_with_diffs [("diff --git a/old.py b/new.py\n+1\n").data]
      ≠ [("new.py").data] := by
  decide

/-- C4 (amended): for a chunk whose header follows
`<delimiter><path-a> b/<anything>` — with `<path-a>` free of newlines and
of the `" b/"` marker — the extractor returns `path-a`, the pre-change
path (which coincides with the post-change path exactly when the file
was not renamed); chunks on which the pattern finds no match are
silently skipped. -/
theorem c4_filename_extraction (pathA rest : List Char)
    (h1 : pathA.all (fun c => c ≠ Char.ofNat 10) = true)
    (h2 : hasSubstring [' ', 'b', '/'] pathA = false) :
    get_files_with_diffs [DIFF_DELIMITER ++ (pathA ++ ' ' :: 'b' :: '/' :: rest)]
      = [pathA] ∧
    (∀ chunk, searchAB chunk = none → get_files_with_diffs [chunk] = []) ∧
    get_files_with_diffs [("diff --git a/x/y.py b/x/y.py\n+1\n").data]
      = [("x/y.py").data] := by
  have hfs := findSpaceB_append pathA rest h1 h2
  have hs : searchAB (DIFF_DELIMITER ++ (pathA ++ ' ' :: 'b' :: '/' :: rest))
      = some pathA := by
    have hstep : searchAB (DIFF_DELIMITER ++ (pathA ++ ' ' :: 'b' :: '/' :: rest)) =
        (match findSpaceB (pathA ++ ' ' :: 'b' :: '/' :: rest) with
         | some g => some g
         | none => searchAB ('/' :: (pathA ++ ' ' :: 'b' :: '/' :: rest))) := rfl
    rw [hstep, hfs]
  refine ⟨?_, ?_, by decide⟩
  · simp [get_files_with_diffs, List.filterMap_cons, hs]
  · intro chunk hnone
    simp [get_files_with_diffs, List.filterMap_cons, hnone]

/-- Witness for `c4_filename_extraction` on the header of the spec's
example chunk. -/
theorem c4_filename_extraction_witness :
    get_files_with_diffs
        [DIFF_DELIMITER ++ (("x/y.py").data ++ ' ' :: 'b' :: '/' :: ("x/y.py\n+1\n").data)]
      = [("x/y.py").data] :=
  (c4_filename_extraction (("x/y.py").data) (("x/y.py\n+1\n").data)
    (by decide) (by decide)).1

/-! Claim C3. -/

/-- C3 is false as stated: the key-format match is anchored only at the
start, so digits need not extend to the end of the key.  The key
`"a.py:12x"` does not have the spec's `<path>:<digits-to-end>` shape,
yet with a non-empty body the code parses it to `("a.py", 12)` and
publishes one inline comment instead of skipping the entry. -/
theorem c3_anchoring_counterexample :
    specLocKeyFormat (("a.py:12x").data) = none ∧
    parse_filename_line (("a.py:12x").data) = some ((("a.py").data), (("12").data)) ∧
    add_comments [((("a.py:12x").data), (("note").data))]
      = ([.inline 12 (("a.py").data) (("note").data)], {("a.py").data}, 1) := by
  decide

/-- C3 (amended): each key is matched against the location-key format
`<path>:<line>` where the line part is one or more digits, but the
match (`re.match` of `(.+):(\d+)`) is anchored at the start only, not
at the end: the path is everything before the final `:<digits>` segment
reachable by `(.+)` (whose `.` cannot cross a newline), the line is the
digit run after it, and any trailing characters after that run are
ignored rather than causing a skip — so `"a.py:12x"` parses to path
`"a.py"`, line 12 and is published.  Every entry whose key does not
match, or whose feedback body is empty, is silently skipped (no comment
published, not counted, no error raised).  As the claim states,
`"src/app.py:42"` parses to path `"src/app.py"` and line 42, while
`"src/app.py"` and `"src/app.py:abc"` fail to parse and are skipped;
and as `re.match` behaves, `"x\ny:1"` fails to parse while
`"a:1b\nc:2"` parses to path `"a"`, line 1. -/
theorem c3_location_key_parsing (k v : List Char)
    (pre post : List (List Char × List Char))
    (h : parse_filename_line k = none ∨ v = []) :
    add_comments (pre ++ (k, v) :: post) = add_comments (pre ++ post) ∧
    parse_filename_line (("src/app.py:42").data)
      = some ((("src/app.py").data), (("42").data)) ∧
    digitsToNat (("42").data) = 42 ∧
    parse_filename_line (("src/app.py").data) = none ∧
    parse_filename_line (("src/app.py:abc").data) = none ∧
    parse_filename_line (("a.py:12x").data)
      = some ((("a.py").data), (("12").data)) ∧
    parse_filename_line (("x\ny:1").data) = none ∧
    parse_filename_line (("a:1b\nc:2").data)
      = some ((("a").data), (("1").data)) := by
  refine ⟨?_, by decide, by decide, by decide, by decide, by decide,
    by decide, by decide⟩
  have hg : suggestionEntry (k, v) = none := by
    rcases h with h | h
    · simp [suggestionEntry, h]
    · subst h
      cases hp : parse_filename_line k <;> simp [suggestionEntry, hp]
  simp only [add_comments, List.filterMap_append, List.filterMap_cons, hg]

/-- Witness for `c3_location_key_parsing`: a line-less key contributes
nothing. -/
theorem c3_location_key_parsing_witness :
    add_comments ([((("a.py:1").data), (("ok").data))]
        ++ ((("src/app.py").data), (("x").data)) :: [])
      = add_comments ([((("a.py:1").data), (("ok").data))] ++ []) :=
  (c3_location_key_parsing (("src/app.py").data) (("x").data)
    [((("a.py:1").data), (("ok").data))] [] (Or.inl (by decide))).1

/-! Claim C9. -/

/-- C9: the publisher returns the total count of comments actually
published (one per published payload) together with the distinct set of
paths that received inline comments; on the spec's example
`{"a.py:1": "fix this", "b.py:2": ""}` exactly one inline comment is
published and the result is the set `{"a.py"}` with count 1. -/
theorem c9_publisher_result (data : List (List Char × List Char)) :
    (add_comments data).2.2 = (add_comments data).1.length ∧
    (add_comments data).2.1 = ((add_comments data).1.map commentPath).toFinset ∧
    add_comments [((("a.py:1").data), (("fix this").data)), ((("b.py:2").data), [])]
      = ([.inline 1 (("a.py").data) (("fix this").data)], {("a.py").data}, 1) := by
  refine ⟨?_, ?_, by decide⟩
  · simp [add_comments]
  · simp only [add_comments, List.map_map]
    congr 1

/-! Claims C1, C6 and C7 are about `run`. -/

/-- When a non-zero token ceiling is exceeded, `get_code_review` stops
before the completion call and returns `None` with no effect. -/
theorem get_code_review_skip (env : Env) (o : Oracles) (diffs : List (List Char))
    (hlim : env.promptMaxTokens ≠ 0)
    (htok : num_tokens_from_messages o.encode (build_messages env diffs)
      > env.promptMaxTokens) :
    get_code_review env o diffs = (none, []) := by
  simp only [get_code_review]
  rw [if_pos ⟨hlim, htok⟩]

/-- C1: when the configured ceiling is non-zero and the computed token
count exceeds it, the completion service is never invoked and no comment
is posted (the only effect is the diff fetch) — but the run does NOT end
successfully: `get_code_review` returns `None` and
`code_review.get('summary')` in `run` (src/main.py:306) raises
`AttributeError`, so the pipeline terminates with an uncaught error.
The early-stop itself is intended (src/main.py:188-191 logs a warning
and `Pipe is stopped.`); the crash in `run` is a code bug relative to
that intent. -/
theorem c1_token_limit_crash (env : Env) (o : Oracles) (a : Auth)
    (ha : resolve_auth env = .ok a) (pid : List Char) (hpid : env.prId = some pid)
    (hd : get_diffs_to_review env o ≠ [])
    (hlim : env.promptMaxTokens ≠ 0)
    (htok : num_tokens_from_messages o.encode
        (build_messages env (get_diffs_to_review env o)) > env.promptMaxTokens) :
    run env o = (.error .attributeError,
      [.fetchDiff env.workspace env.repoSlug pid]) := by
  have hgcr := get_code_review_skip env o (get_diffs_to_review env o) hlim htok
  have hne : (get_diffs_to_review env o).isEmpty = false :=
    List.isEmpty_eq_false.mpr hd
  simp only [run, ha, hpid, hne, hgcr]
  simp

/-- Witness for `c1_token_limit_crash`: ceiling 3000, tokenizer charging
1000 per value (computed count 4010). -/
theorem c1_token_limit_crash_witness :
    run envTokenLimit oracleTokenLimit
      = (.error .attributeError,
         [.fetchDiff (some (("w").data)) (some (("r").data)) (("1").data)]) :=
  c1_token_limit_crash envTokenLimit oracleTokenLimit
    (.httpBasic (("u").data) (("p").data)) (by decide)
    (("1").data) (by decide) (by decide) (by decide) (by decide)

/-- C6 is false as stated: when the parsed completion payload lacks the
`suggestions` field (here the reply is `{"summary": "ok"}`), the run
does not complete — `add_comments` receives `None` and `None.items()`
raises `AttributeError`.  The summary comment is still posted first. -/
theorem c6_absent_suggestions_counterexample :
    (oracleAbsentSuggestions.completion
        (build_messages envPlain
          (get_diffs_to_review envPlain oracleAbsentSuggestions))).suggestions
      = none ∧
    (run envPlain oracleAbsentSuggestions).1 = .error .attributeError ∧
    (run envPlain oracleAbsentSuggestions).2.getLast?
      = some (.postComment (.summaryComment (("ok").data))) := by
  refine ⟨rfl, by decide, by decide⟩

/-- C6 (amended): after a successful parse, `summary` may be absent or
empty and `suggestions` may be empty, and the run completes: the summary
comment is published only for a returned non-empty summary, and an empty
suggestions mapping publishes no inline comment.  But an absent
`suggestions` field (`None`) crashes the run with `AttributeError`
inside `add_comments`, after the summary comment (if any) was already
posted. -/
theorem c6_optional_fields (env : Env) (o : Oracles) (a : Auth)
    (ha : resolve_auth env = .ok a) (pid : List Char) (hpid : env.prId = some pid)
    (hd : get_diffs_to_review env o ≠ [])
    (payload : ReviewPayload) (effs : List Effect)
    (hgcr : get_code_review env o (get_diffs_to_review env o) = (some payload, effs)) :
    (payload.suggestions = none →
      run env o = (.error .attributeError,
        .fetchDiff env.workspace env.repoSlug pid ::
          (effs ++ summaryEffects payload.summary))) ∧
    (∀ sugg, payload.suggestions = some sugg →
      run env o = (.ok (),
        .fetchDiff env.workspace env.repoSlug pid ::
          (effs ++ summaryEffects payload.summary
            ++ (add_comments sugg).1.map Effect.postComment))) ∧
    summaryEffects none = [] ∧
    summaryEffects (some []) = [] ∧
    (∀ s, s ≠ [] → summaryEffects (some s) = [.postComment (.summaryComment s)]) ∧
    (add_comments []).1 = [] := by
  have hne : (get_diffs_to_review env o).isEmpty = false :=
    List.isEmpty_eq_false.mpr hd
  refine ⟨?_, ?_, rfl, rfl, ?_, rfl⟩
  · intro hnone
    simp only [run, ha, hpid, hne, hgcr, hnone]
    simp [List.append_assoc]
  · intro sugg hsome
    simp only [run, ha, hpid, hne, hgcr, hsome]
    simp [List.append_assoc]
  · intro s hs
    simp [summaryEffects, pyTruthy, List.isEmpty_eq_false.mpr hs]

/-- Witness for `c6_optional_fields`: a reply with no summary and an
empty suggestions mapping completes the run. -/
theorem c6_optional_fields_witness :
    (run envPlain oracleNoComments).1 = .ok () := by
  have h := c6_optional_fields envPlain oracleNoComments
    (.httpBasic (("u").data) (("p").data)) (by decide)
    (("1").data) (by decide) (by decide)
    ⟨none, some []⟩
    [.completionCall (build_messages envPlain
      (get_diffs_to_review envPlain oracleNoComments))] rfl
  rw [h.2.1 [] rfl]

/-- C7 is false as stated: with valid authentication and PR id but
`BITBUCKET_WORKSPACE` and `BITBUCKET_REPO_SLUG` both unset, no fatal
error is raised before a network call — the run's first outward request
is the diff fetch, performed with the unset values interpolated into the
URL, and the run even completes successfully. -/
theorem c7_missing_workspace_counterexample :
    envNoWorkspace.workspace = none ∧
    envNoWorkspace.repoSlug = none ∧
    (run envNoWorkspace oracleNoComments).1 = .ok () ∧
    (run envNoWorkspace oracleNoComments).2.head?
      = some (.fetchDiff none none (("1").data)) := by
  refine ⟨rfl, rfl, by decide, by decide⟩

/-- C7 (amended): a fatal error is raised immediately, before any
network call (no effect is recorded), when both Bitbucket
authentication schemes are absent (`ValueError` from `resolve_auth` in
`__init__`) or when the pull-request identifier is unset
(`EnvironmentError` at the top of `run`).  Absence of the workspace or
repository slug raises no such early error. -/
theorem c7_config_errors (env : Env) (o : Oracles) :
    ((pyTruthy env.username && pyTruthy env.password) = false →
      pyTruthy env.token = false →
      run env o = (.error .valueError, [])) ∧
    (∀ a, resolve_auth env = .ok a → env.prId = none →
      run env o = (.error .envError, [])) := by
  constructor
  · intro h1 h2
    have hra : resolve_auth env = .error .valueError := by
      simp [resolve_auth, h1, h2]
    simp only [run, hra]
  · intro a ha hpr
    simp only [run, ha, hpr]

/-- Witness for `c7_config_errors`: no auth scheme configured. -/
theorem c7_config_errors_witness :
    run envNoAuth oracleNoComments = (.error .valueError, []) :=
  (c7_config_errors envNoAuth oracleNoComments).1 (by decide) (by decide)

end CodeReviewPipe
